import Mathlib

/-!
Shallow embedding of the `data_control` selection broker (the server side of
the wlr data-control clipboard protocol) and proofs of its specification
properties.

Embedded from:
- `src/wayland/data_control/source.rs`   (Metadata, source `Data`, Offer/Destroy
  request handling, the `destroyed` callback, `with_source_metadata`)
- `src/wayland/data_control/device.rs`   (SetSelection with the focus guard,
  Destroy)
- `src/wayland/data_control/manager.rs`  (CreateDataSource, GetDataDevice)
- `src/wayland/data_control/seat_data.rs` is present only as its import
  prologue; the `SeatData` body (`new`, `add_device`, `retain_devices`,
  `set_selection` with its notification fan-out, and the clearing of a seat's
  selection when the owning source is destroyed) is modelled from the spec,
  as marked on each such definition.

Wayland resources are identified by natural-number ids.  The external
collaborators (seat registry resolution, keyboard presence, keyboard focus)
are a parameter `Env` of the operations, mirroring the trait bounds of the
Rust dispatch code.  A request handler returns `Option` of an outcome:
`none` models a panicking `.unwrap()` on missing seat user-data.
-/

namespace DataControl

abbrev SourceId := Nat
abbrev SeatId := Nat
abbrev DeviceId := Nat

/-- The metadata describing a data source (`Metadata` in source.rs): the MIME
types supported by this source, in the order they were offered. -/
structure Metadata where
  mime_types : List String
deriving Repr, DecidableEq

/-- The per-source user data (`Data` in source.rs): the metadata under its
mutex, and the alive tracker flag. -/
structure SourceData where
  inner : Metadata
  alive : Bool
deriving Repr, DecidableEq

/-- `Data::new` from source.rs: default (empty) metadata, default (alive)
alive-tracker. -/
def SourceData.new : SourceData :=
  { inner := { mime_types := [] }, alive := true }

/-- The seat-selection variant (`Selection` in the data_control module):
either no selection, or a client source owning it. -/
inductive Selection where
  | Empty : Selection
  | Client : SourceId → Selection
deriving Repr, DecidableEq

/-- Modelled from the spec: `SeatSelectionState` (the `SeatData` struct whose
body is absent from seat_data.rs) holds the current selection and the live
set of devices registered on the seat. -/
structure SeatData where
  selection : Selection
  devices : List DeviceId
deriving Repr, DecidableEq

/-- Modelled from the spec: `SeatData::new` (absent from seat_data.rs) —
a lazily created seat state starts with no selection and no devices. -/
def SeatData.new : SeatData :=
  { selection := Selection.Empty, devices := [] }

/-- Modelled from the spec: `SeatData::add_device` (absent from seat_data.rs)
registers a device in the seat's device set. -/
def SeatData.add_device (sd : SeatData) (d : DeviceId) : SeatData :=
  { sd with devices := sd.devices ++ [d] }

/-- Modelled from the spec: `SeatData::retain_devices` (absent from
seat_data.rs) keeps exactly the devices satisfying the predicate. -/
def SeatData.retain_devices (sd : SeatData) (p : DeviceId → Bool) : SeatData :=
  { sd with devices := sd.devices.filter p }

/-- A server-to-client notification sent to one device: either a selection
offer referencing the owning source, or an explicit cleared signal. -/
inductive Notification where
  | selectionOffer : DeviceId → SourceId → Notification
  | selectionCleared : DeviceId → Notification
deriving Repr, DecidableEq

/-- The device a notification is addressed to. -/
def Notification.target : Notification → DeviceId
  | Notification.selectionOffer d _ => d
  | Notification.selectionCleared d => d

/-- The notification one device receives for a given effective selection. -/
def notifyDevice (sel : Selection) (d : DeviceId) : Notification :=
  match sel with
  | Selection.Empty => Notification.selectionCleared d
  | Selection.Client s => Notification.selectionOffer d s

/-- Modelled from the spec: `SeatData::set_selection` (absent from
seat_data.rs) replaces the seat's current selection wholesale and notifies
every registered device of the new effective selection. -/
def SeatData.set_selection (sd : SeatData) (sel : Selection) :
    SeatData × List Notification :=
  ({ sd with selection := sel }, sd.devices.map (notifyDevice sel))

/-! ### Association lists keyed by `Nat` ids

The per-resource user-data maps (`seat.user_data()`, `source.data()`) are
embedded as association lists from ids to the stored data. -/

def alistLookup {α : Type} (l : List (Nat × α)) (k : Nat) : Option α :=
  match l with
  | [] => none
  | (k', v) :: rest => if k' == k then some v else alistLookup rest k

def alistUpdate {α : Type} (l : List (Nat × α)) (k : Nat) (v : α) :
    List (Nat × α) :=
  match l with
  | [] => []
  | (k', w) :: rest =>
      if k' == k then (k', v) :: rest else (k', w) :: alistUpdate rest k v

/-- `UserDataMap::insert_if_missing`: adds the entry only when the key is not
already bound. -/
def alistInsertIfMissing {α : Type} (l : List (Nat × α)) (k : Nat) (v : α) :
    List (Nat × α) :=
  match alistLookup l k with
  | some _ => l
  | none => l ++ [(k, v)]

theorem alistLookup_update_self {α : Type} (l : List (Nat × α)) (k : Nat)
    (v w : α) (h : alistLookup l k = some w) :
    alistLookup (alistUpdate l k v) k = some v := by
  induction l with
  | nil => simp [alistLookup] at h
  | cons p rest ih =>
      obtain ⟨k', w'⟩ := p
      by_cases hk : k' == k
      · simp [alistLookup, alistUpdate, hk]
      · simp only [alistLookup, alistUpdate, hk, if_false, Bool.false_eq_true,
          if_neg] at h ⊢
        exact ih h

theorem alistLookup_update_other {α : Type} (l : List (Nat × α))
    (k k' : Nat) (v : α) (h : k ≠ k') :
    alistLookup (alistUpdate l k v) k' = alistLookup l k' := by
  induction l with
  | nil => simp [alistLookup, alistUpdate]
  | cons p rest ih =>
      obtain ⟨k'', w⟩ := p
      by_cases hk : k'' == k
      · have hk2 : (k'' == k') = false := by
          simp only [beq_iff_eq] at hk
          subst hk
          simp [beq_eq_false_iff_ne, h]
        simp [alistLookup, alistUpdate, hk, hk2]
      · simp [alistLookup, alistUpdate, hk, ih]

theorem alistLookup_insertIfMissing_self {α : Type} (l : List (Nat × α))
    (k : Nat) (v : α) :
    alistLookup (alistInsertIfMissing l k v) k =
      some ((alistLookup l k).getD v) := by
  unfold alistInsertIfMissing
  cases hl : alistLookup l k with
  | some w => simp [hl]
  | none =>
      simp only [Option.getD_none]
      induction l with
      | nil => simp [alistLookup]
      | cons p rest ih =>
          obtain ⟨k', w⟩ := p
          by_cases hk : k' == k
          · simp [alistLookup, hk] at hl
          · simp only [alistLookup, hk, Bool.false_eq_true, if_false] at hl
            simpa [alistLookup, hk] using ih hl

theorem alistLookup_mem {α : Type} (l : List (Nat × α)) (k : Nat) (v : α)
    (h : alistLookup l k = some v) : (k, v) ∈ l := by
  induction l with
  | nil => simp [alistLookup] at h
  | cons p rest ih =>
      obtain ⟨k', w⟩ := p
      by_cases hk : k' == k
      · simp only [alistLookup, hk, if_pos] at h
        simp only [beq_iff_eq] at hk
        subst hk
        cases h
        simp
      · simp only [alistLookup, hk, Bool.false_eq_true, if_neg,
          if_false] at h
        exact List.mem_cons_of_mem _ (ih h)

theorem alistLookup_keyMap {α : Type} (f : Nat → α → α) (l : List (Nat × α))
    (k : Nat) :
    alistLookup (l.map (fun p => (p.1, f p.1 p.2))) k =
      (alistLookup l k).map (f k) := by
  induction l with
  | nil => simp [alistLookup]
  | cons p rest ih =>
      obtain ⟨k', v⟩ := p
      by_cases hk : k' == k
      · have : k' = k := by simpa [beq_iff_eq] using hk
        subst this
        simp [alistLookup, hk]
      · simp [alistLookup, hk, ih]

/-! ### The broker state and its external collaborators -/

/-- The whole broker-visible state: the source user-data map, the per-seat
selection states (present only for seats whose state was lazily created),
the device-to-seat bindings, and a fresh-id counter for new resources. -/
structure BrokerState where
  sources : List (SourceId × SourceData)
  seats : List (SeatId × SeatData)
  devices : List (DeviceId × SeatId)
  nextId : Nat
deriving Repr, DecidableEq

/-- The external collaborators consumed by the dispatch code:
`resolve_seat` is `Seat::from_resource` on a `WlSeat` resource id,
`has_keyboard` is `seat.get_keyboard().is_some()`, and `has_focus` is
`keyboard.client_of_object_has_focus(resource.id())` for the device
resource. -/
structure Env where
  resolve_seat : Nat → Option SeatId
  has_keyboard : SeatId → Bool
  has_focus : SeatId → DeviceId → Bool

/-- The observable outcome of a dispatched request: the post state, the
notifications sent to devices, whether `Handler::new_selection` was invoked
on the compositor handler, and whether a protocol error was posted to the
requesting client (the dispatch code never posts one). -/
structure RequestOutcome where
  state : BrokerState
  notifications : List Notification
  new_selection_called : Bool
  error_posted : Bool
deriving Repr, DecidableEq

/-! ### Request handlers -/

/-- The selection argument conversion from device.rs line 49:
`source.map(Selection::Client).unwrap_or(Selection::Empty)`. -/
def selOf (source : Option SourceId) : Selection :=
  match source with
  | some s => Selection.Client s
  | none => Selection.Empty

/-- `Dispatch<Device, Data, D>::request`, `Request::SetSelection` arm
(device.rs lines 38-58).  Returns `none` when the `.unwrap()` on the seat's
`SeatData` user data would panic; a seat that does not resolve, a seat
without a keyboard, or a requester without keyboard focus all leave the
state untouched and send nothing. -/
def deviceRequestSetSelection (env : Env) (st : BrokerState)
    (device : DeviceId) (wl_seat : Nat) (source : Option SourceId) :
    Option RequestOutcome :=
  match env.resolve_seat wl_seat with
  | none => some { state := st, notifications := [],
                   new_selection_called := false, error_posted := false }
  | some seat =>
      if env.has_keyboard seat then
        if env.has_focus seat device then
          match alistLookup st.seats seat with
          | none => none
          | some sd =>
              let r := sd.set_selection (selOf source)
              some { state := { st with seats := alistUpdate st.seats seat r.1 },
                     notifications := r.2,
                     new_selection_called := true, error_posted := false }
        else
          some { state := st, notifications := [],
                 new_selection_called := false, error_posted := false }
      else
        some { state := st, notifications := [],
               new_selection_called := false, error_posted := false }

/-- `Dispatch<Device, Data, D>::request`, `Request::Destroy` arm
(device.rs lines 59-66): retain every known device other than the destroyed
one.  `none` models the panicking `.unwrap()` on missing seat user data. -/
def deviceRequestDestroy (env : Env) (st : BrokerState) (device : DeviceId)
    (wl_seat : Nat) : Option RequestOutcome :=
  match env.resolve_seat wl_seat with
  | none => some { state := st, notifications := [],
                   new_selection_called := false, error_posted := false }
  | some seat =>
      match alistLookup st.seats seat with
      | none => none
      | some sd =>
          some { state := { st with
                   seats := alistUpdate st.seats seat
                     (sd.retain_devices (fun ndd => ndd != device)) },
                 notifications := [],
                 new_selection_called := false, error_posted := false }

/-- `Dispatch<Manager, (), D>::request`, `Request::CreateDataSource` arm
(manager.rs lines 54-56): initialize the new source resource with
`source::Data::new()`.  Returns the post state and the new source id. -/
def managerCreateDataSource (st : BrokerState) : BrokerState × SourceId :=
  ({ st with sources := st.sources ++ [(st.nextId, SourceData.new)],
             nextId := st.nextId + 1 }, st.nextId)

/-- `Dispatch<Manager, (), D>::request`, `Request::GetDataDevice` arm
(manager.rs lines 57-74): an unresolvable seat is logged and ignored;
otherwise the seat's `SeatData` is created if missing, the device resource
is initialized bound to the seat, and it is added to the seat's devices.
The outer `none` models the (unreachable) panicking `.unwrap()`; the inner
option is the created device id, absent when the seat is unknown. -/
def managerGetDataDevice (env : Env) (st : BrokerState) (wl_seat : Nat) :
    Option (BrokerState × Option DeviceId) :=
  match env.resolve_seat wl_seat with
  | none => some (st, none)
  | some seat =>
      let seats1 := alistInsertIfMissing st.seats seat SeatData.new
      match alistLookup seats1 seat with
      | none => none
      | some sd =>
          some ({ sources := st.sources,
                  seats := alistUpdate seats1 seat (sd.add_device st.nextId),
                  devices := st.devices ++ [(st.nextId, seat)],
                  nextId := st.nextId + 1 }, some st.nextId)

/-- `Dispatch<Source, Data, D>::request`, `Request::Offer` arm
(source.rs lines 59-61): push the MIME type onto the locked metadata. -/
def sourceRequestOffer (d : SourceData) (mime_type : String) : SourceData :=
  { d with inner := { mime_types := d.inner.mime_types ++ [mime_type] } }

/-- A finite sequence of `Offer` requests applied in call order. -/
def applyOffers (d : SourceData) (ms : List String) : SourceData :=
  ms.foldl sourceRequestOffer d

/-- `Dispatch<Source, Data, D>::destroyed` (source.rs lines 67-69): the
alive tracker is notified that the resource is gone. -/
def sourceDestroyNotify (d : SourceData) : SourceData :=
  { d with alive := false }

/-- Modelled from the spec: the selection-clearing half of source
destruction (the `SeatData` body is absent from seat_data.rs) — if the seat
currently holds this source as its selection, replace it with `Empty`,
notifying every device; otherwise leave the seat alone. -/
def clearSeatIfOwns (s : SourceId) (sd : SeatData) :
    SeatData × List Notification :=
  match sd.selection with
  | Selection.Client t =>
      if t == s then sd.set_selection Selection.Empty else (sd, [])
  | Selection.Empty => (sd, [])

/-- Full destruction handling for a source: the `destroyed` callback from
source.rs marks its alive tracker dead, and (modelled from the spec, the
`SeatData` body being absent from seat_data.rs) every seat whose current
selection is this source transitions to `Empty` with a cleared notification
fanned out to its devices. -/
def sourceDestroyed (st : BrokerState) (s : SourceId) :
    BrokerState × List Notification :=
  let cleared := st.seats.map (fun p => (p.1, clearSeatIfOwns s p.2))
  ({ st with
     sources := st.sources.map
       (fun p => (p.1, if p.1 == s then sourceDestroyNotify p.2 else p.2)),
     seats := cleared.map (fun p => (p.1, p.2.1)) },
   (cleared.map (fun p => p.2.2)).flatten)

/-- The unmanaged-resource error type (`crate::utils::UnmanagedResource`). -/
inductive UnmanagedResource where
  | unmanaged : UnmanagedResource
deriving Repr, DecidableEq

/-- `with_source_metadata` (source.rs lines 80-88): look up the `Data` user
data of the handle; apply the continuation to the locked metadata when it is
there, fail with `UnmanagedResource` when it is not. -/
def with_source_metadata {T : Type} (data : Option SourceData)
    (f : Metadata → T) : Except UnmanagedResource T :=
  match data with
  | some d => Except.ok (f d.inner)
  | none => Except.error UnmanagedResource.unmanaged

/-! ### Sample states and environments used by witnesses -/

/-- Seat data with no selection and two registered devices 1 and 2. -/
def sampleSeatData : SeatData :=
  { selection := Selection.Empty, devices := [1, 2] }

/-- A broker state with one seat (id 0) holding `sampleSeatData`, and one
fresh source (id 5). -/
def sampleState : BrokerState :=
  { sources := [(5, SourceData.new)],
    seats := [(0, sampleSeatData)],
    devices := [(1, 0), (2, 0)],
    nextId := 6 }

/-- An environment where wl_seat resource 0 resolves to seat 0, the seat has
a keyboard, and no client holds focus. -/
def envNoFocus : Env :=
  { resolve_seat := fun w => if w == 0 then some 0 else none,
    has_keyboard := fun _ => true,
    has_focus := fun _ _ => false }

/-- An environment where wl_seat resource 0 resolves to seat 0, but the seat
has no keyboard. -/
def envNoKeyboard : Env :=
  { resolve_seat := fun w => if w == 0 then some 0 else none,
    has_keyboard := fun _ => false,
    has_focus := fun _ _ => true }

/-- An environment where wl_seat resource 0 resolves to seat 0, the seat has
a keyboard, and every client holds focus. -/
def envFocused : Env :=
  { resolve_seat := fun w => if w == 0 then some 0 else none,
    has_keyboard := fun _ => true,
    has_focus := fun _ _ => true }

/-! ### Claims -/

/-- Claim C1: a SetSelection request through a device whose client does not
currently hold keyboard focus on the seat is silently denied — the broker
state (the seat's `SeatData`, `current` and `devices` included) is returned
exactly unchanged, no notification is sent, and no error is posted to the
requesting client. -/
theorem setSelection_denied_without_focus (env : Env) (st : BrokerState)
    (device : DeviceId) (wl_seat : Nat) (source : Option SourceId)
    (seat : SeatId) (hseat : env.resolve_seat wl_seat = some seat)
    (hfocus : env.has_focus seat device = false) :
    deviceRequestSetSelection env st device wl_seat source =
      some { state := st, notifications := [],
             new_selection_called := false, error_posted := false } := by
  unfold deviceRequestSetSelection
  rw [hseat]
  by_cases hk : env.has_keyboard seat
  · simp [hk, hfocus]
  · simp [hk]

theorem setSelection_denied_without_focus_witness :
    deviceRequestSetSelection envNoFocus sampleState 1 0 (some 5) =
      some { state := sampleState, notifications := [],
             new_selection_called := false, error_posted := false } :=
  setSelection_denied_without_focus envNoFocus sampleState 1 0 (some 5) 0
    rfl rfl

/-- Claim C10: a SetSelection request on a device bound to a seat whose
keyboard lookup returns nothing is dropped exactly like a focus-guard
failure — `Handler::new_selection` is not invoked, the state (the seat's
`SeatData` included) is unchanged, no notification is sent and no error
reaches the client. -/
theorem setSelection_dropped_without_keyboard (env : Env) (st : BrokerState)
    (device : DeviceId) (wl_seat : Nat) (source : Option SourceId)
    (seat : SeatId) (hseat : env.resolve_seat wl_seat = some seat)
    (hkb : env.has_keyboard seat = false) :
    deviceRequestSetSelection env st device wl_seat source =
      some { state := st, notifications := [],
             new_selection_called := false, error_posted := false } := by
  unfold deviceRequestSetSelection
  rw [hseat]
  simp [hkb]

theorem setSelection_dropped_without_keyboard_witness :
    deviceRequestSetSelection envNoKeyboard sampleState 1 0 (some 5) =
      some { state := sampleState, notifications := [],
             new_selection_called := false, error_posted := false } :=
  setSelection_dropped_without_keyboard envNoKeyboard sampleState 1 0
    (some 5) 0 rfl rfl

theorem applyOffers_mime_types (d : SourceData) (ms : List String) :
    (applyOffers d ms).inner.mime_types = d.inner.mime_types ++ ms ∧
      (applyOffers d ms).alive = d.alive := by
  induction ms generalizing d with
  | nil => simp [applyOffers]
  | cons m ms ih =>
      have h := ih (sourceRequestOffer d m)
      constructor
      · calc (applyOffers d (m :: ms)).inner.mime_types
            = (sourceRequestOffer d m).inner.mime_types ++ ms := h.1
          _ = d.inner.mime_types ++ (m :: ms) := by
              simp [sourceRequestOffer]
      · exact h.2

/-- Claim C5: after a finite sequence of N `Offer(mime_type)` calls on a
fresh source, `Metadata.mime_types` equals exactly the sequence of the N
mime types passed, in call order, duplicates retained; and a single `Offer`
only appends its argument, mutating nothing else (the alive flag in
particular). -/
theorem offer_appends_in_order (ms : List String) :
    (applyOffers SourceData.new ms).inner.mime_types = ms ∧
    (∀ d m, (sourceRequestOffer d m).inner.mime_types =
        d.inner.mime_types ++ [m] ∧
      (sourceRequestOffer d m).alive = d.alive) := by
  constructor
  · simpa [SourceData.new] using (applyOffers_mime_types SourceData.new ms).1
  · intro d m
    exact ⟨rfl, rfl⟩

/-- Claim C6: `CreateDataSource` always succeeds; the new source is
registered with `Data::new()` — empty metadata and an alive tracker that is
alive — and no seat's `SeatData` (nor the device set) is touched. -/
theorem createDataSource_fresh (st : BrokerState) :
    (managerCreateDataSource st).1.sources =
      st.sources ++ [((managerCreateDataSource st).2, SourceData.new)] ∧
    SourceData.new.inner.mime_types = [] ∧
    SourceData.new.alive = true ∧
    (managerCreateDataSource st).1.seats = st.seats ∧
    (managerCreateDataSource st).1.devices = st.devices :=
  ⟨rfl, rfl, rfl, rfl, rfl⟩

/-- Claim C8: `with_source_metadata` fails with `UnmanagedResource` exactly
when the handle carries no `Source` data, and otherwise returns `Ok` of the
continuation applied to the source's current metadata. -/
theorem with_source_metadata_spec {T : Type} (data : Option SourceData)
    (f : Metadata → T) :
    (with_source_metadata data f =
        Except.error UnmanagedResource.unmanaged ↔ data = none) ∧
    ∀ d, data = some d →
      with_source_metadata data f = Except.ok (f d.inner) := by
  cases data <;> simp [with_source_metadata]

theorem with_source_metadata_spec_witness :
    with_source_metadata (some SourceData.new)
        (fun m => m.mime_types.length) = Except.ok 0 :=
  (with_source_metadata_spec (some SourceData.new)
    (fun m => m.mime_types.length)).2 SourceData.new rfl

/-- Claim C9: destroying a device removes exactly that device from its
seat's device set, emits no notification, and leaves the seat's current
selection (and every source) unchanged. -/
theorem deviceDestroy_spec (env : Env) (st : BrokerState) (device : DeviceId)
    (wl_seat : Nat) (seat : SeatId) (sd : SeatData)
    (hseat : env.resolve_seat wl_seat = some seat)
    (hsd : alistLookup st.seats seat = some sd) :
    deviceRequestDestroy env st device wl_seat =
      some { state := { st with seats := (alistUpdate st.seats seat
               (sd.retain_devices (fun ndd => ndd != device))) },
             notifications := [],
             new_selection_called := false, error_posted := false } ∧
    alistLookup (alistUpdate st.seats seat
        (sd.retain_devices (fun ndd => ndd != device))) seat =
      some (sd.retain_devices (fun ndd => ndd != device)) ∧
    (sd.retain_devices (fun ndd => ndd != device)).selection = sd.selection ∧
    device ∉ (sd.retain_devices (fun ndd => ndd != device)).devices ∧
    ∀ d ∈ sd.devices, d ≠ device →
      d ∈ (sd.retain_devices (fun ndd => ndd != device)).devices := by
  refine ⟨?_, alistLookup_update_self _ _ _ _ hsd, rfl, ?_, ?_⟩
  · unfold deviceRequestDestroy
    rw [hseat]
    simp only [hsd]
  · simp [SeatData.retain_devices, List.mem_filter]
  · intro d hd hne
    simp [SeatData.retain_devices, List.mem_filter, hd, hne]

theorem deviceDestroy_spec_witness :
    deviceRequestDestroy envFocused sampleState 1 0 =
      some { state := { sampleState with seats := (alistUpdate
               sampleState.seats 0
               (sampleSeatData.retain_devices (fun ndd => ndd != 1))) },
             notifications := [],
             new_selection_called := false, error_posted := false } ∧
    1 ∉ (sampleSeatData.retain_devices (fun ndd => ndd != 1)).devices :=
  ⟨(deviceDestroy_spec envFocused sampleState 1 0 0 sampleSeatData
      rfl rfl).1,
   (deviceDestroy_spec envFocused sampleState 1 0 0 sampleSeatData
      rfl rfl).2.2.2.1⟩

/-- Claim C7: `GetDataDevice` with an unresolvable seat handle is ignored —
no state change, no device object; with a resolvable handle it lazily
creates the seat's `SeatData` when absent, creates a new device bound to
the seat, and registers it in the seat's device set, leaving the sources
untouched. -/
theorem getDataDevice_spec (env : Env) (st : BrokerState) (wl_seat : Nat) :
    (env.resolve_seat wl_seat = none →
       managerGetDataDevice env st wl_seat = some (st, none)) ∧
    ∀ seat, env.resolve_seat wl_seat = some seat →
      ∃ st', managerGetDataDevice env st wl_seat =
          some (st', some st.nextId) ∧
        st'.devices = st.devices ++ [(st.nextId, seat)] ∧
        alistLookup st'.seats seat =
          some (((alistLookup st.seats seat).getD SeatData.new).add_device
            st.nextId) ∧
        st.nextId ∈
          (((alistLookup st.seats seat).getD SeatData.new).add_device
            st.nextId).devices ∧
        st'.sources = st.sources := by
  constructor
  · intro h
    unfold managerGetDataDevice
    rw [h]
  · intro seat h
    have hlook := alistLookup_insertIfMissing_self st.seats seat SeatData.new
    refine ⟨{ sources := st.sources,
              seats := alistUpdate (alistInsertIfMissing st.seats seat
                  SeatData.new) seat
                (((alistLookup st.seats seat).getD SeatData.new).add_device
                  st.nextId),
              devices := st.devices ++ [(st.nextId, seat)],
              nextId := st.nextId + 1 }, ?_, rfl, ?_, ?_, rfl⟩
    · unfold managerGetDataDevice
      rw [h]
      simp only [hlook]
    · exact alistLookup_update_self _ _ _ _ hlook
    · simp [SeatData.add_device]

theorem getDataDevice_spec_witness :
    managerGetDataDevice envNoFocus sampleState 3 =
        some (sampleState, none) ∧
    ∃ st', managerGetDataDevice envNoFocus sampleState 0 =
        some (st', some sampleState.nextId) ∧
      st'.devices = sampleState.devices ++ [(sampleState.nextId, 0)] ∧
      alistLookup st'.seats 0 =
        some (((alistLookup sampleState.seats 0).getD SeatData.new).add_device
          sampleState.nextId) ∧
      sampleState.nextId ∈
        (((alistLookup sampleState.seats 0).getD SeatData.new).add_device
          sampleState.nextId).devices ∧
      st'.sources = sampleState.sources :=
  ⟨(getDataDevice_spec envNoFocus sampleState 3).1 rfl,
   (getDataDevice_spec envNoFocus sampleState 0).2 0 rfl⟩

/-- The success path of the SetSelection handler, spelled out: with a
resolved seat, a keyboard, and focus, the handler invokes
`Handler::new_selection` and replaces the seat's selection, fanning out one
notification per registered device. -/
theorem deviceRequestSetSelection_focused (env : Env) (st : BrokerState)
    (device : DeviceId) (wl_seat : Nat) (source : Option SourceId)
    (seat : SeatId) (sd : SeatData)
    (hseat : env.resolve_seat wl_seat = some seat)
    (hkb : env.has_keyboard seat = true)
    (hfocus : env.has_focus seat device = true)
    (hsd : alistLookup st.seats seat = some sd) :
    deviceRequestSetSelection env st device wl_seat source =
      some { state := { st with seats := (alistUpdate st.seats seat
               { selection := selOf source, devices := sd.devices }) },
             notifications := sd.devices.map (notifyDevice (selOf source)),
             new_selection_called := true, error_posted := false } := by
  unfold deviceRequestSetSelection
  rw [hseat]
  simp only [hkb, hfocus, if_true, hsd]
  rfl

/-- Claim C3: a seat's selection holds at most one owning source at any
instant; a successful SetSelection replaces the previous value of `current`
wholesale with `Owned(s)` (never adding a second concurrent owner), and no
source — the replaced one in particular — is destroyed or otherwise touched
by the replacement. -/
theorem setSelection_single_owner_replace (env : Env) (st : BrokerState)
    (device : DeviceId) (wl_seat : Nat) (s : SourceId) (seat : SeatId)
    (sd : SeatData)
    (hseat : env.resolve_seat wl_seat = some seat)
    (hkb : env.has_keyboard seat = true)
    (hfocus : env.has_focus seat device = true)
    (hsd : alistLookup st.seats seat = some sd) :
    (∀ sd' : SeatData, ∀ a b : SourceId,
       sd'.selection = Selection.Client a →
       sd'.selection = Selection.Client b → a = b) ∧
    ∃ out, deviceRequestSetSelection env st device wl_seat (some s) =
        some out ∧
      alistLookup out.state.seats seat =
        some { selection := Selection.Client s, devices := sd.devices } ∧
      out.state.sources = st.sources ∧
      out.state.devices = st.devices := by
  constructor
  · intro sd' a b h1 h2
    rw [h1] at h2
    injection h2
  · exact ⟨_, deviceRequestSetSelection_focused env st device wl_seat
        (some s) seat sd hseat hkb hfocus hsd,
      alistLookup_update_self _ _ _ _ hsd, rfl, rfl⟩

theorem setSelection_single_owner_replace_witness :
    ∃ out, deviceRequestSetSelection envFocused sampleState 1 0 (some 5) =
        some out ∧
      alistLookup out.state.seats 0 =
        some { selection := Selection.Client 5,
               devices := sampleSeatData.devices } ∧
      out.state.sources = sampleState.sources ∧
      out.state.devices = sampleState.devices :=
  (setSelection_single_owner_replace envFocused sampleState 1 0 5 0
    sampleSeatData rfl rfl rfl rfl).2

theorem notifyDevice_target (sel : Selection) (d : DeviceId) :
    (notifyDevice sel d).target = d := by
  cases sel <;> rfl

/-- Claim C4: on a selection change, every device then registered on the
seat — the triggering client's own device included — is notified with the
new effective selection (an offer reference when owned, a cleared signal
when empty); with a duplicate-free device set, each device receives exactly
one notification. -/
theorem setSelection_notifies_all_devices (env : Env) (st : BrokerState)
    (device : DeviceId) (wl_seat : Nat) (source : Option SourceId)
    (seat : SeatId) (sd : SeatData)
    (hseat : env.resolve_seat wl_seat = some seat)
    (hkb : env.has_keyboard seat = true)
    (hfocus : env.has_focus seat device = true)
    (hsd : alistLookup st.seats seat = some sd) :
    ∃ out, deviceRequestSetSelection env st device wl_seat source =
        some out ∧
      out.notifications = sd.devices.map (notifyDevice (selOf source)) ∧
      (∀ d ∈ sd.devices, notifyDevice (selOf source) d ∈
        out.notifications) ∧
      (sd.devices.Nodup → ∀ d ∈ sd.devices,
        out.notifications.countP (fun n => n.target == d) = 1) := by
  refine ⟨_, deviceRequestSetSelection_focused env st device wl_seat source
      seat sd hseat hkb hfocus hsd, rfl, ?_, ?_⟩
  · intro d hd
    simp only [List.mem_map]
    exact ⟨d, hd, rfl⟩
  · intro hnd d hd
    have hmap : (sd.devices.map (notifyDevice (selOf source))).countP
        (fun n => n.target == d) = sd.devices.countP (fun d' => d' == d) := by
      rw [List.countP_map]
      congr 1
      funext d'
      simp [Function.comp, notifyDevice_target]
    show (sd.devices.map _).countP _ = 1
    rw [hmap]
    have hc : sd.devices.count d = 1 := List.count_eq_one_of_mem hnd hd
    simpa [List.count] using hc

theorem setSelection_notifies_all_devices_witness :
    ∃ out,
      deviceRequestSetSelection envFocused sampleState 1 0 (some 5) =
        some out ∧
      out.notifications =
        sampleSeatData.devices.map (notifyDevice (selOf (some 5))) ∧
      (∀ d ∈ sampleSeatData.devices,
        notifyDevice (selOf (some 5)) d ∈ out.notifications) ∧
      (sampleSeatData.devices.Nodup → ∀ d ∈ sampleSeatData.devices,
        out.notifications.countP (fun n => n.target == d) = 1) :=
  setSelection_notifies_all_devices envFocused sampleState 1 0 (some 5) 0
    sampleSeatData rfl rfl rfl rfl

theorem alistLookup_clearSeats (s : SourceId) (l : List (SeatId × SeatData))
    (seat : SeatId) :
    alistLookup ((l.map (fun p => (p.1, clearSeatIfOwns s p.2))).map
        (fun p => (p.1, p.2.1))) seat =
      (alistLookup l seat).map (fun sd => (clearSeatIfOwns s sd).1) := by
  induction l with
  | nil => simp [alistLookup]
  | cons p rest ih =>
      obtain ⟨k, sd⟩ := p
      by_cases hk : k == seat
      · simp [alistLookup, hk]
      · simp only [List.map_cons, alistLookup, hk, Bool.false_eq_true,
          if_false]
        exact ih

theorem alistLookup_destroyMap (s : SourceId)
    (l : List (SourceId × SourceData)) :
    alistLookup (l.map (fun p =>
        (p.1, if p.1 == s then sourceDestroyNotify p.2 else p.2))) s =
      (alistLookup l s).map sourceDestroyNotify := by
  induction l with
  | nil => simp [alistLookup]
  | cons p rest ih =>
      obtain ⟨k, d⟩ := p
      by_cases hk : k == s
      · simp [alistLookup, hk]
      · simp only [List.map_cons, alistLookup, hk, Bool.false_eq_true,
          if_false]
        exact ih

theorem sourceDestroyed_seats_lookup (st : BrokerState) (s : SourceId)
    (seat : SeatId) :
    alistLookup (sourceDestroyed st s).1.seats seat =
      (alistLookup st.seats seat).map (fun sd => (clearSeatIfOwns s sd).1) :=
  alistLookup_clearSeats s st.seats seat

theorem clearSeatIfOwns_selection_ne (s : SourceId) (sd : SeatData) :
    (clearSeatIfOwns s sd).1.selection ≠ Selection.Client s := by
  unfold clearSeatIfOwns
  cases hsel : sd.selection with
  | Empty => simp [hsel]
  | Client t =>
      by_cases ht : t == s
      · simp [ht, SeatData.set_selection]
      · simp only [ht, Bool.false_eq_true, if_false]
        simp only [beq_iff_eq] at ht
        simp [hsel, ht]

/-- Claim C2: destroying a source that currently owns a seat's selection
transitions that seat to `Empty` as part of destruction handling, delivers a
cleared notification to every device registered on the seat, marks the
source dead, and leaves no seat's selection referring to the destroyed
source. -/
theorem sourceDestroyed_clears (st : BrokerState) (s : SourceId) :
    (∀ seat sd', alistLookup (sourceDestroyed st s).1.seats seat = some sd' →
       sd'.selection ≠ Selection.Client s) ∧
    (∀ seat sd, alistLookup st.seats seat = some sd →
       sd.selection = Selection.Client s →
         alistLookup (sourceDestroyed st s).1.seats seat =
           some { selection := Selection.Empty, devices := sd.devices } ∧
         ∀ d ∈ sd.devices,
           Notification.selectionCleared d ∈ (sourceDestroyed st s).2) ∧
    (∀ dat, alistLookup st.sources s = some dat →
       alistLookup (sourceDestroyed st s).1.sources s =
         some { dat with alive := false }) := by
  refine ⟨?_, ?_, ?_⟩
  · intro seat sd' h
    rw [sourceDestroyed_seats_lookup] at h
    cases hl : alistLookup st.seats seat with
    | none => rw [hl] at h; simp at h
    | some sd =>
        rw [hl] at h
        simp only [Option.map_some'] at h
        cases h
        exact clearSeatIfOwns_selection_ne s sd
  · intro seat sd hl hsel
    constructor
    · rw [sourceDestroyed_seats_lookup, hl]
      simp only [Option.map_some', Option.some.injEq]
      unfold clearSeatIfOwns
      rw [hsel]
      simp [SeatData.set_selection]
    · intro d hd
      have hmem : (seat, sd) ∈ st.seats := alistLookup_mem _ _ _ hl
      show Notification.selectionCleared d ∈
        ((st.seats.map (fun p => (p.1, clearSeatIfOwns s p.2))).map
          (fun p => p.2.2)).flatten
      refine List.mem_flatten.mpr ⟨(clearSeatIfOwns s sd).2, ?_, ?_⟩
      · exact List.mem_map_of_mem _
          (List.mem_map_of_mem (fun p => (p.1, clearSeatIfOwns s p.2)) hmem)
      · unfold clearSeatIfOwns
        rw [hsel]
        simp only [beq_self_eq_true, if_true, SeatData.set_selection]
        exact List.mem_map_of_mem _ hd
  · intro dat h
    show alistLookup (st.sources.map (fun p =>
        (p.1, if p.1 == s then sourceDestroyNotify p.2 else p.2))) s =
      some { dat with alive := false }
    rw [alistLookup_destroyMap, h]
    rfl

/-- A broker state where seat 0's selection is owned by source 5, with
devices 1 and 2 registered. -/
def ownedState : BrokerState :=
  { sources := [(5, SourceData.new)],
    seats := [(0, { selection := Selection.Client 5, devices := [1, 2] })],
    devices := [(1, 0), (2, 0)],
    nextId := 6 }

theorem sourceDestroyed_clears_witness :
    alistLookup (sourceDestroyed ownedState 5).1.seats 0 =
        some { selection := Selection.Empty, devices := [1, 2] } ∧
    Notification.selectionCleared 1 ∈ (sourceDestroyed ownedState 5).2 ∧
    alistLookup (sourceDestroyed ownedState 5).1.sources 5 =
        some { inner := { mime_types := [] }, alive := false } :=
  ⟨((sourceDestroyed_clears ownedState 5).2.1 0
      { selection := Selection.Client 5, devices := [1, 2] } rfl rfl).1,
   ((sourceDestroyed_clears ownedState 5).2.1 0
      { selection := Selection.Client 5, devices := [1, 2] } rfl rfl).2 1
      (by simp),
   (sourceDestroyed_clears ownedState 5).2.2 SourceData.new rfl⟩

end DataControl
